import Mathlib

/-!
# Verification of the libkrun custom handler of crun

Shallow embedding of `src/libcrun/handlers/krun.c` (the libkrun handler)
and proofs about its specification.  Pure C functions become Lean
functions; interactions with the host (dlopen/dlsym results, file-system
state, stat results, backend entry-point return values) are passed in
explicitly as environment records, and each embedded function returns the
trace of backend calls it issued together with an `Except` result, so that
error behaviour and call ordering are observable in the theorems.
-/

namespace Krun

/-! ## Machine-integer conversions

C implicit conversions at call boundaries: `yajl` integers are C
`long long` (modelled as `Int`); the libkrun entry points take `uint8_t`
and `uint32_t` parameters, so the values are reduced modulo 2^8 resp.
2^32 (C unsigned conversion, i.e. mathematical mod for negatives too). -/

/-- Conversion of a C signed integer value to `uint8_t`: reduction modulo 2^8. -/
def u8 (i : Int) : Nat := (i.emod 256).toNat

/-- Conversion of a C signed integer value to `uint32_t`: reduction modulo 2^32. -/
def u32 (i : Int) : Nat := (i.emod 4294967296).toNat

/-! ## Constants from krun.c -/

/-- `#define LIBKRUN_MAX_VCPUS 16` — libkrun's hard limit of vCPUs per microVM. -/
def LIBKRUN_MAX_VCPUS : Nat := 16

/-- `#define KRUN_CONFIG_FILE ".krun_config.json"` — staged config file name
inside the container rootfs. -/
def KRUN_CONFIG_FILE : String := ".krun_config.json"

/-- `#define KRUN_SEV_FILE "/krun-sev.json"` — confidential-workload sentinel. -/
def KRUN_SEV_FILE : String := "/krun-sev.json"

/-- `#define KRUN_VM_FILE "/.krun_vm.json"` — microVM descriptor file. -/
def KRUN_VM_FILE : String := "/.krun_vm.json"

/-! ## Open flags and mode bits (Linux numeric values) -/

def O_WRONLY : Nat := 0o1
def O_CREAT : Nat := 0o100
def O_TRUNC : Nat := 0o1000
def O_NOFOLLOW : Nat := 0o400000
def O_CLOEXEC : Nat := 0o2000000

def S_IRUSR : Nat := 0o400
def S_IRGRP : Nat := 0o40
def S_IROTH : Nat := 0o4

/-- Whether a flags word contains a given flag bit. -/
def hasFlag (flags f : Nat) : Bool := flags.land f != 0

/-- Modelled from the spec: `WRITE_FILE_DEFAULT_FLAGS` is declared in
`src/libcrun/utils.h`, which is not among the given sources.  The spec
describes the destination open as "a mode ... that atomically
creates-or-truncates" a write-only file, i.e. `O_CLOEXEC | O_CREAT |
O_WRONLY | O_TRUNC`. -/
def WRITE_FILE_DEFAULT_FLAGS : Nat := O_CLOEXEC ||| O_CREAT ||| O_WRONLY ||| O_TRUNC

/-- The flags krun.c passes to `safe_openat` for the staged config file:
`WRITE_FILE_DEFAULT_FLAGS | O_NOFOLLOW`. -/
def krun_config_open_flags : Nat := WRITE_FILE_DEFAULT_FLAGS ||| O_NOFOLLOW

/-- The mode krun.c passes for the staged config file:
`S_IRUSR | S_IRGRP | S_IROTH`. -/
def krun_config_open_mode : Nat := S_IRUSR ||| S_IRGRP ||| S_IROTH

/-! ## Error model

One constructor per distinct failure site of krun.c.  `backend code`
wraps a negative backend return value `-ret` the way `crun_make_error
(err, -ret, ...)` does. -/

inductive Err
  | symbol_missing
  | backend (code : Int)
  | no_backend
  | malloc_failed
  | open_failed
  | eloop
  | read_failed
  | parse_failed
  | write_failed
  | state_dir_failed
  | append_paths_failed
  | stat_failed
  | user_ns_check_failed
  | create_dev_failed
  | sev_unavailable
  | krun_unavailable
  | dlclose_failed (sev : Bool)
  | null_deref
  deriving DecidableEq, Repr

/-! ## yajl JSON model

Only the shapes krun.c distinguishes: strings, numbers that are integers
(`YAJL_IS_INTEGER`), numbers that are not, and everything else.  A parsed
descriptor is its top-level object, a list of key/value pairs. -/

inductive JVal
  | jstring (s : String)
  | jint (n : Int)
  | jdouble
  | jother
  deriving DecidableEq, Repr

abbrev JObj := List (String × JVal)

inductive JType
  | tstring
  | tnumber
  | tother
  deriving DecidableEq, Repr

def JVal.typeOf : JVal → JType
  | .jstring _ => .tstring
  | .jint _ => .tnumber
  | .jdouble => .tnumber
  | .jother => .tother

/-- `yajl_tree_get (tree, { key, 0 }, ty)`: look up a top-level key and
return the node only if its type matches the requested one. -/
def yajl_tree_get (t : JObj) (key : String) (ty : JType) : Option JVal :=
  match t.find? (fun p => p.1 == key) with
  | some p => if p.2.typeOf == ty then some p.2 else none
  | none => none

/-- Whether a top-level key is present and is an integer number, i.e. the
lookup-and-`YAJL_IS_INTEGER` pattern krun.c applies to `cpus` and
`ram_mib`. -/
def is_int_field (t : JObj) (key : String) : Bool :=
  match yajl_tree_get t key .tnumber with
  | some (.jint _) => true
  | _ => false

/-! ## Backend ABI model

A backend call records exactly the values the C code passes (after C
implicit conversions).  A `Handle` models one dlopen'ed library: which
symbols `dlsym` resolves, and the return value of each entry point. -/

inductive BackendCall
  | create_ctx
  | set_log_level (level : Nat)
  | set_kernel (ctx : Nat) (kernel_path : String) (kernel_format : Nat)
      (initrd_path : Option String) (kernel_cmdline : Option String)
  | set_vm_config (ctx : Nat) (num_vcpus : Nat) (ram_mib : Nat)
  | set_root (ctx : Nat) (root_path : String)
  | set_root_disk (ctx : Nat) (disk_path : String)
  | set_workdir (ctx : Nat) (workdir_path : String)
  | set_tee_config_file (ctx : Nat) (file_path : String)
  | start_enter (ctx : Nat)
  deriving DecidableEq, Repr

structure Handle where
  has_krun_create_ctx : Bool := true
  has_krun_set_kernel : Bool := true
  has_krun_set_vm_config : Bool := true
  has_krun_set_log_level : Bool := true
  has_krun_start_enter : Bool := true
  has_krun_set_root : Bool := true
  has_krun_set_workdir : Bool := true
  has_krun_set_root_disk : Bool := true
  has_krun_set_tee_config_file : Bool := true
  ret : BackendCall → Int := fun _ => 0

/-! ## `struct krun_config`

`ctx_id`/`ctx_id_sev` are `Option Int` because the C struct leaves them
uninitialized when the corresponding library is not bound;
`libkrun_load` only sets the one whose handle is non-NULL. -/

structure KrunConfig where
  handle : Option Handle
  handle_sev : Option Handle
  sev : Bool
  ctx_id : Option Int
  ctx_id_sev : Option Int

/-! ## `libkrun_create_context` (krun.c lines 73–88) -/

def libkrun_create_context (h : Handle) : Except Err Int :=
  if h.has_krun_create_ctx then
    let ctx_id := h.ret .create_ctx
    if ctx_id < 0 then .error (.backend (-ctx_id))
    else .ok ctx_id
  else .error .symbol_missing

/-! ## `libkrun_configure_kernel` (krun.c lines 90–138)

Returns the backend calls issued and the result.  kernel_path and
kernel_format must both be present and well-typed, otherwise the function
silently does nothing; initrd_path and kernel_cmdline are independently
optional. -/

def libkrun_configure_kernel (ctx_id : Nat) (h : Handle) (config_tree : JObj) :
    List BackendCall × Except Err Unit :=
  match yajl_tree_get config_tree "kernel_path" .tstring with
  | some (.jstring kernel_path) =>
    match yajl_tree_get config_tree "kernel_format" .tnumber with
    | some (.jint kernel_format) =>
      let initrd_path : Option String :=
        match yajl_tree_get config_tree "initrd_path" .tstring with
        | some (.jstring s) => some s
        | _ => none
      let kernel_cmdline : Option String :=
        match yajl_tree_get config_tree "kernel_cmdline" .tstring with
        | some (.jstring s) => some s
        | _ => none
      if h.has_krun_set_kernel then
        let call := BackendCall.set_kernel ctx_id kernel_path (u32 kernel_format)
          initrd_path kernel_cmdline
        let r := h.ret call
        if r < 0 then ([call], .error (.backend (-r)))
        else ([call], .ok ())
      else ([], .error .symbol_missing)
    | _ => ([], .ok ())
  | _ => ([], .ok ())

/-! ## `libkrun_configure_vm` (krun.c lines 140–190) -/

/-- State of the `KRUN_VM_FILE` descriptor as seen by krun.c:
absent (`access` fails), present but unreadable (`read_all_file` fails),
present but malformed (`parse_json_file` fails), or parsed. -/
inductive VmFile
  | absent
  | unreadable
  | malformed
  | parsed (tree : JObj)
  deriving DecidableEq, Repr

/-- Returns the backend calls issued and either an error or the value of
the `*configured` out-parameter.  Both `cpus` and `ram_mib` must be
present and integers for explicit sizing to be applied. -/
def libkrun_configure_vm (ctx_id : Nat) (h : Handle) (vm_file : VmFile) :
    List BackendCall × Except Err Bool :=
  match vm_file with
  | .absent => ([], .ok false)
  | .unreadable => ([], .error .read_failed)
  | .malformed => ([], .error .parse_failed)
  | .parsed config_tree =>
    match libkrun_configure_kernel ctx_id h config_tree with
    | (kcalls, .error e) => (kcalls, .error e)
    | (kcalls, .ok ()) =>
      match yajl_tree_get config_tree "cpus" .tnumber,
            yajl_tree_get config_tree "ram_mib" .tnumber with
      | some (.jint cpus), some (.jint ram_mib) =>
        if h.has_krun_set_vm_config then
          let call := BackendCall.set_vm_config ctx_id (u8 cpus) (u32 ram_mib)
          let r := h.ret call
          if r < 0 then (kcalls ++ [call], .error (.backend (-r)))
          else (kcalls ++ [call], .ok true)
        else (kcalls, .error .symbol_missing)
      | _, _ => (kcalls, .ok false)

/-! ## OCI runtime spec model

Only the parts krun.c consults.  Pointer-valued fields become `Option`;
`limit` folds `limit_present` together with the `int64_t` limit value. -/

structure DeviceCgroup where
  allow : Bool
  type : String
  major : Nat
  minor : Nat
  access : String
  deriving DecidableEq, Repr

structure MemorySpec where
  limit : Option Int
  deriving DecidableEq, Repr

structure ResourcesSpec where
  memory : Option MemorySpec
  devices : Option (List DeviceCgroup)
  deriving DecidableEq, Repr

/-- One entry of `def->linux->devices`; krun.c only reads its `path`. -/
structure LinuxDevice where
  path : String
  deriving DecidableEq, Repr

structure LinuxSpec where
  resources : Option ResourcesSpec
  devices : List LinuxDevice
  deriving DecidableEq, Repr

structure ProcessSpec where
  cwd : Option String
  deriving DecidableEq, Repr

structure ConfigSchema where
  linux : Option LinuxSpec
  process : Option ProcessSpec
  deriving DecidableEq, Repr

/-- The guard `def && def->linux && def->linux->resources &&
def->linux->resources->memory && def->linux->resources->memory->limit_present`
(krun.c lines 289–291), yielding the declared memory limit. -/
def mem_limit (d : ConfigSchema) : Option Int :=
  match d.linux with
  | none => none
  | some lin =>
    match lin.resources with
    | none => none
    | some res =>
      match res.memory with
      | none => none
      | some mem => mem.limit

/-! ## `libkrun_exec` (krun.c lines 192–309) -/

/-- Host state consulted by `libkrun_exec`:
`sev_file_exists` is `access (KRUN_SEV_FILE, F_OK) == 0`;
`affinity` is `some n` when `sched_getaffinity` succeeds with
`CPU_COUNT (&set) = n`, `none` when it fails. -/
structure ExecEnv where
  sev_file_exists : Bool
  vm_file : VmFile
  affinity : Option Nat

structure ExecResult where
  calls : List BackendCall
  result : Except Err Int
  kconf : KrunConfig

/-- The backend-selection block at the top of `libkrun_exec`
(krun.c lines 211–226): a pure function of the sentinel-file presence and
the bound handles.  On success it yields the chosen handle, the chosen
context id and the state with the `sev` flag updated. -/
def libkrun_select (sev_file_exists : Bool) (kconf : KrunConfig) :
    Except Err (Handle × Option Int × KrunConfig) :=
  if sev_file_exists then
    match kconf.handle_sev with
    | none => .error .sev_unavailable
    | some h => .ok (h, kconf.ctx_id_sev, { kconf with sev := true })
  else
    match kconf.handle with
    | none => .error .krun_unavailable
    | some h => .ok (h, kconf.ctx_id, { kconf with sev := false })

/-- The confidential branch of `libkrun_exec` (krun.c lines 236–250):
root disk `/disk.img`, then the TEE config file. -/
def exec_sev_branch (h : Handle) (ctx : Nat) : List BackendCall × Except Err Unit :=
  if !h.has_krun_set_root_disk || !h.has_krun_set_tee_config_file then
    ([], .error .symbol_missing)
  else
    let c1 := BackendCall.set_root_disk ctx "/disk.img"
    let r1 := h.ret c1
    if r1 < 0 then ([c1], .error (.backend (-r1)))
    else
      let c2 := BackendCall.set_tee_config_file ctx KRUN_SEV_FILE
      let r2 := h.ret c2
      if r2 < 0 then ([c1, c2], .error (.backend (-r2)))
      else ([c1, c2], .ok ())

/-- The standard branch of `libkrun_exec` (krun.c lines 251–269): root is
always "/", the working directory is set only when the spec declares one. -/
def exec_std_branch (h : Handle) (ctx : Nat) (d : ConfigSchema) :
    List BackendCall × Except Err Unit :=
  if !h.has_krun_set_root || !h.has_krun_set_workdir then
    ([], .error .symbol_missing)
  else
    let c1 := BackendCall.set_root ctx "/"
    let r1 := h.ret c1
    if r1 < 0 then ([c1], .error (.backend (-r1)))
    else
      match d.process with
      | none => ([c1], .ok ())
      | some p =>
        match p.cwd with
        | none => ([c1], .ok ())
        | some cwd =>
          let c2 := BackendCall.set_workdir ctx cwd
          let r2 := h.ret c2
          if r2 < 0 then ([c1, c2], .error (.backend (-r2)))
          else ([c1, c2], .ok ())

/-- Legacy vCPU derivation (krun.c lines 284–295): default 1 when
`sched_getaffinity` fails, otherwise `MIN (CPU_COUNT (&set),
LIBKRUN_MAX_VCPUS)`. -/
def legacy_num_vcpus (affinity : Option Nat) : Nat :=
  match affinity with
  | none => 1
  | some n => min n LIBKRUN_MAX_VCPUS

/-- Legacy RAM derivation (krun.c lines 287–291): default `2 * 1024` MiB;
when the spec declares a memory limit, `limit / (1024 * 1024)` (C `int64_t`
division, truncated toward zero) stored into the `uint32_t` local
`ram_mib` (reduction modulo 2^32). -/
def legacy_ram_mib (limit : Option Int) : Nat :=
  match limit with
  | none => 2 * 1024
  | some l => u32 (l.tdiv (1024 * 1024))

/-- The legacy fallback block of `libkrun_exec` (krun.c lines 282–305),
run only when `KRUN_VM_FILE` did not configure sizing.  `num_vcpus` is a
`uint32_t` local passed to the `uint8_t` parameter of
`krun_set_vm_config`, hence the mod 256. -/
def exec_legacy_vm_config (h : Handle) (ctx : Nat) (affinity : Option Nat)
    (d : ConfigSchema) : List BackendCall × Except Err Unit :=
  let num_vcpus := legacy_num_vcpus affinity
  let ram_mib := legacy_ram_mib (mem_limit d)
  if h.has_krun_set_vm_config then
    let call := BackendCall.set_vm_config ctx (num_vcpus % 256) ram_mib
    let r := h.ret call
    if r < 0 then ([call], .error (.backend (-r)))
    else ([call], .ok ())
  else ([], .error .symbol_missing)

/-- `libkrun_exec` (krun.c lines 192–309).  `error (EXIT_FAILURE, ...)`
exits the process; modelled as an `Except.error` result carrying the
backend calls issued up to that point.  The `uint32_t ctx_id` parameter of
every entry point receives the selected `int32_t` context id; a context id
left uninitialized by `libkrun_load` (unreachable from states it produces)
is read as 0. -/
def libkrun_exec (kconf : KrunConfig) (env : ExecEnv) (d : ConfigSchema) : ExecResult :=
  match libkrun_select env.sev_file_exists kconf with
  | .error e => ⟨[], .error e, kconf⟩
  | .ok (h, ctx?, kconf') =>
    let ctx := u32 (ctx?.getD 0)
    if !h.has_krun_set_log_level || !h.has_krun_start_enter then
      ⟨[], .error .symbol_missing, kconf'⟩
    else
      -- krun_set_log_level (1): return value ignored by the C code.
      let log_call := BackendCall.set_log_level 1
      match if kconf'.sev then exec_sev_branch h ctx else exec_std_branch h ctx d with
      | (bcalls, .error e) => ⟨log_call :: bcalls, .error e, kconf'⟩
      | (bcalls, .ok ()) =>
        match libkrun_configure_vm ctx h env.vm_file with
        | (vcalls, .error e) => ⟨log_call :: bcalls ++ vcalls, .error e, kconf'⟩
        | (vcalls, .ok configured) =>
          match if configured then ([], .ok ())
                else exec_legacy_vm_config h ctx env.affinity d with
          | (lcalls, .error e) =>
            ⟨log_call :: bcalls ++ vcalls ++ lcalls, .error e, kconf'⟩
          | (lcalls, .ok ()) =>
            let sc := BackendCall.start_enter ctx
            ⟨log_call :: bcalls ++ vcalls ++ lcalls ++ [sc], .ok (-(h.ret sc)), kconf'⟩

/-! ## `libkrun_load` (krun.c lines 411–463) -/

/-- Host state consulted by `libkrun_load`: the `malloc` outcome and the
two `dlopen` outcomes. -/
structure LoadEnv where
  malloc_ok : Bool
  dlopen_krun : Option Handle
  dlopen_krun_sev : Option Handle

def libkrun_load (env : LoadEnv) : Except Err KrunConfig :=
  if !env.malloc_ok then .error .malloc_failed
  else
    match env.dlopen_krun, env.dlopen_krun_sev with
    | none, none => .error .no_backend
    | handle, handle_sev =>
      -- kconf->sev = false; then one context per bound library, each
      -- failure immediately fatal for the whole load.
      match (match handle with
             | none => Except.ok (none : Option Int)
             | some h =>
               match libkrun_create_context h with
               | .error e => .error e
               | .ok ctx_id => .ok (some ctx_id)) with
      | .error e => .error e
      | .ok ctx_id =>
        match (match handle_sev with
               | none => Except.ok (none : Option Int)
               | some h =>
                 match libkrun_create_context h with
                 | .error e => .error e
                 | .ok ctx_id_sev => .ok (some ctx_id_sev)) with
        | .error e => .error e
        | .ok ctx_id_sev =>
          .ok { handle := handle, handle_sev := handle_sev, sev := false,
                ctx_id := ctx_id, ctx_id_sev := ctx_id_sev }

/-! ## `libkrun_unload` (krun.c lines 465–487) -/

/-- Host state consulted by `libkrun_unload`: whether each `dlclose`
succeeds (consulted only if attempted). -/
structure UnloadEnv where
  dlclose_ok : Bool
  dlclose_sev_ok : Bool

/-- Returns which `dlclose` calls were attempted, as the pair
(standard attempted, sev attempted), together with the result.  The C
code returns on the first failure, so a failing close of the standard
handle prevents the close of the sev handle. -/
def libkrun_unload (kconf : Option KrunConfig) (env : UnloadEnv) :
    (Bool × Bool) × Except Err Unit :=
  match kconf with
  | none => ((false, false), .ok ())
  | some k =>
    match k.handle with
    | some _ =>
      if env.dlclose_ok then
        match k.handle_sev with
        | some _ =>
          if env.dlclose_sev_ok then ((true, true), .ok ())
          else ((true, true), .error (.dlclose_failed true))
        | none => ((true, false), .ok ())
      else ((true, false), .error (.dlclose_failed false))
    | none =>
      match k.handle_sev with
      | some _ =>
        if env.dlclose_sev_ok then ((false, true), .ok ())
        else ((false, true), .error (.dlclose_failed true))
      | none => ((false, false), .ok ())

/-! ## Rootfs directory model (for the BEFORE_MOUNTS staging)

The rootfs root directory is an association list from entry name to
entry.  Only the entries of this one directory matter: the staged config
file is a single path component opened relative to the rootfs directory
descriptor. -/

inductive Entry
  | file (content : List Nat)
  | symlink (target : String)
  | dir
  deriving DecidableEq, Repr

abbrev RootDir := List (String × Entry)

def dirLookup (d : RootDir) (name : String) : Option Entry :=
  (d.find? (fun p => p.1 == name)).map (·.2)

/-- Replace the first entry called `name`, or append one if absent. -/
def dirInsert (d : RootDir) (name : String) (e : Entry) : RootDir :=
  match d with
  | [] => [(name, e)]
  | p :: rest => if p.1 == name then (name, e) :: rest else p :: dirInsert rest name e

/-- Modelled from the spec: `safe_openat` lives in `src/libcrun/utils.c`,
which is not among the given sources.  Per the spec, it opens `name`
relative to the already-open rootfs directory descriptor, never walking
untrusted rootfs content; with `O_NOFOLLOW` among the flags a symbolic
link as the final path component makes the open fail (`ELOOP`) instead of
being followed; with `O_CREAT`/`O_TRUNC` the file is atomically
created-or-truncated with permission `mode`.  The result is the updated
directory paired with a flag recording whether a symbolic link was
followed (only possible without `O_NOFOLLOW`). -/
def safe_openat (d : RootDir) (name : String) (flags : Nat) (_mode : Nat) :
    Except Err (RootDir × Bool) :=
  match dirLookup d name with
  | some (.symlink _) =>
    if hasFlag flags O_NOFOLLOW then .error .eloop
    else .ok (d, true)
  | some .dir => .error .open_failed
  | some (.file _) =>
    if hasFlag flags O_TRUNC then .ok (dirInsert d name (.file []), false)
    else .ok (d, false)
  | none =>
    if hasFlag flags O_CREAT then .ok (dirInsert d name (.file []), false)
    else .error .open_failed

/-! ## `libkrun_configure_container` (krun.c lines 311–409) -/

/-- `struct device_s` from linux.h: path, type, major, minor, mode,
uid, gid. -/
structure DeviceS where
  path : String
  type : String
  major : Nat
  minor : Nat
  mode : Nat
  uid : Nat
  gid : Nat
  deriving DecidableEq, Repr

/-- `struct device_s kvm_device = { "/dev/kvm", "c", 10, 232, 0666, 0, 0 }` -/
def kvm_device : DeviceS := ⟨"/dev/kvm", "c", 10, 232, 0o666, 0, 0⟩

/-- `struct device_s sev_device = { "/dev/sev", "c", 10, 124, 0666, 0, 0 }` -/
def sev_device : DeviceS := ⟨"/dev/sev", "c", 10, 124, 0o666, 0, 0⟩

/-- The phases of `enum handler_configure_phase` that krun.c
distinguishes; every phase other than the two named ones is a no-op. -/
inductive HandlerConfigurePhase
  | before_mounts
  | after_mounts
  | other_phase
  deriving DecidableEq, Repr

/-- Host state consulted by `libkrun_configure_container`:
results of the external utility calls, and the rootfs root directory.
`origin_config` is the result of `read_all_file` on the stored
`config.json` in the state directory; `user_ns` is the result of
`check_running_in_user_namespace` (`none` = error);
`create_dev_ok` gives the outcome of `libcrun_create_dev` per device. -/
structure ConfigureEnv where
  rootfs_given : Bool
  rootfs_open_ok : Bool
  rootfs_dir : RootDir
  state_dir_ok : Bool
  append_paths_ok : Bool
  origin_config : Option (List Nat)
  write_ok : Bool
  dev_dir_open_ok : Bool
  user_ns : Option Bool
  create_dev_ok : DeviceS → Bool

/-- Outcome of one `libkrun_configure_container` invocation: the rootfs
root directory afterwards, whether any open followed a symbolic link, the
device nodes created via `libcrun_create_dev`, and the result. -/
structure ConfigureResult where
  rootfs_dir : RootDir
  symlink_followed : Bool
  created : List DeviceS
  result : Except Err Unit

/-- The `HANDLER_CONFIGURE_BEFORE_MOUNTS` block (krun.c lines 337–366):
locate the stored original config, read it whole, then write an exact
copy to `KRUN_CONFIG_FILE` inside the rootfs through
`safe_openat (rootfsfd, rootfs, KRUN_CONFIG_FILE,
WRITE_FILE_DEFAULT_FLAGS | O_NOFOLLOW, S_IRUSR | S_IRGRP | S_IROTH)`
followed by `safe_write`. -/
def configure_before_mounts (env : ConfigureEnv) : ConfigureResult :=
  if !env.state_dir_ok then ⟨env.rootfs_dir, false, [], .error .state_dir_failed⟩
  else if !env.append_paths_ok then
    ⟨env.rootfs_dir, false, [], .error .append_paths_failed⟩
  else
    match env.origin_config with
    | none => ⟨env.rootfs_dir, false, [], .error .read_failed⟩
    | some config =>
      match safe_openat env.rootfs_dir KRUN_CONFIG_FILE
          krun_config_open_flags krun_config_open_mode with
      | .error e => ⟨env.rootfs_dir, false, [], .error e⟩
      | .ok (d', followed) =>
        if env.write_ok then
          -- a followed symlink would place the bytes outside the
          -- modelled rootfs directory
          ⟨if followed then d' else dirInsert d' KRUN_CONFIG_FILE (.file config),
           followed, [], .ok ()⟩
        else ⟨d', followed, [], .error .write_failed⟩

/-- The `HANDLER_CONFIGURE_AFTER_MOUNTS` block (krun.c lines 368–408).
The C code dereferences `def->linux` unconditionally here; a spec without
a linux section would crash, modelled as the distinguished `null_deref`
outcome. -/
def configure_after_mounts (kconf : KrunConfig) (env : ConfigureEnv)
    (d : ConfigSchema) : ConfigureResult :=
  match d.linux with
  | none => ⟨env.rootfs_dir, false, [], .error .null_deref⟩
  | some lin =>
    -- Do nothing if /dev/kvm is already present in spec
    if lin.devices.any (fun dev => dev.path == "/dev/kvm") then
      ⟨env.rootfs_dir, false, [], .ok ()⟩
    else
      let create_sev := kconf.handle_sev.isSome
        && !(lin.devices.any (fun dev => dev.path == "/dev/sev"))
      if !env.dev_dir_open_ok then ⟨env.rootfs_dir, false, [], .error .open_failed⟩
      else
        match env.user_ns with
        | none => ⟨env.rootfs_dir, false, [], .error .user_ns_check_failed⟩
        | some _is_user_ns =>
          if env.create_dev_ok kvm_device then
            if create_sev then
              if env.create_dev_ok sev_device then
                ⟨env.rootfs_dir, false, [kvm_device, sev_device], .ok ()⟩
              else ⟨env.rootfs_dir, false, [kvm_device], .error .create_dev_failed⟩
            else ⟨env.rootfs_dir, false, [kvm_device], .ok ()⟩
          else ⟨env.rootfs_dir, false, [], .error .create_dev_failed⟩

/-- `libkrun_configure_container` (krun.c lines 311–409): open the rootfs
directory descriptor, run the BEFORE_MOUNTS staging when in that phase,
then return unless in the AFTER_MOUNTS phase, in which case inject the
device nodes. -/
def libkrun_configure_container (kconf : KrunConfig) (phase : HandlerConfigurePhase)
    (env : ConfigureEnv) (d : ConfigSchema) : ConfigureResult :=
  if env.rootfs_given && !env.rootfs_open_ok then
    ⟨env.rootfs_dir, false, [], .error .open_failed⟩
  else
    match phase with
    | .before_mounts => configure_before_mounts env
    | .after_mounts => configure_after_mounts kconf env d
    | .other_phase => ⟨env.rootfs_dir, false, [], .ok ()⟩

/-! ## `libkrun_modify_oci_configuration` (krun.c lines 489–550) -/

/-- Result of `stat` on a host device node: found with the node's
major/minor, absent (`errno == ENOENT`), or failed with another errno. -/
inductive StatResult
  | found (dev_major dev_minor : Nat)
  | enoent
  | err_other
  deriving DecidableEq, Repr

/-- Host state consulted by `libkrun_modify_oci_configuration`. -/
structure OciEnv where
  stat_kvm : StatResult
  stat_sev : StatResult

/-- `make_oci_spec_dev` (krun.c lines 489–508). -/
def make_oci_spec_dev (type_ : String) (dev_major dev_minor : Nat)
    (allow : Bool) (access_ : String) : DeviceCgroup :=
  { allow := allow, type := type_, major := dev_major, minor := dev_minor,
    access := access_ }

/-- `libkrun_modify_oci_configuration` (krun.c lines 510–550): a no-op
unless the spec has linux resources with a device-cgroup list; then stat
`/dev/kvm` (any failure fatal) and `/dev/sev` (only non-ENOENT failures
fatal) and append one "rwm" allow rule per discovered device. -/
def libkrun_modify_oci_configuration (d : ConfigSchema) (env : OciEnv) :
    Except Err ConfigSchema :=
  match d.linux with
  | none => .ok d
  | some lin =>
    match lin.resources with
    | none => .ok d
    | some res =>
      match res.devices with
      | none => .ok d
      | some devs =>
        -- Always allow the /dev/kvm device.
        match env.stat_kvm with
        | .found kvm_major kvm_minor =>
          match (match env.stat_sev with
                 | .found sev_major sev_minor => Except.ok (some (sev_major, sev_minor))
                 | .enoent => .ok none
                 | .err_other => .error Err.stat_failed) with
          | .error e => .error e
          | .ok sev? =>
            let newDevs := devs
              ++ [make_oci_spec_dev "a" kvm_major kvm_minor true "rwm"]
              ++ (match sev? with
                  | some (sev_major, sev_minor) =>
                    [make_oci_spec_dev "a" sev_major sev_minor true "rwm"]
                  | none => [])
            let res' : ResourcesSpec := { res with devices := some newDevs }
            let lin' : LinuxSpec := { lin with resources := some res' }
            .ok { d with linux := some lin' }
        | _ => .error .stat_failed

/-- The spec `d` with the device-cgroup rule list of its resources
replaced by `devs` and everything else unchanged (statement vocabulary
for the append-only behaviour of the OCI patcher). -/
def with_devices (d : ConfigSchema) (lin : LinuxSpec) (res : ResourcesSpec)
    (devs : List DeviceCgroup) : ConfigSchema :=
  let res' : ResourcesSpec := { res with devices := some devs }
  let lin' : LinuxSpec := { lin with resources := some res' }
  { d with linux := some lin' }

/-! ## Concrete host states used to evaluate the development -/

/-- A backend library in which every entry point resolves and succeeds
(every return value 0). -/
def ok_handle : Handle := {}

/-- A backend library in which `krun_create_ctx` fails with -1 and every
other entry point succeeds. -/
def ctx_fail_handle : Handle :=
  { ret := fun c => match c with | .create_ctx => -1 | _ => 0 }

/-- Load environment: both libraries bind; the standard library's context
creation fails, the confidential one's succeeds. -/
def c2_load_env : LoadEnv := ⟨true, some ctx_fail_handle, some ok_handle⟩

/-- Load environment: both libraries bind; the standard library's context
creation succeeds (so a usable context exists), the confidential one's
fails. -/
def c2_load_env_sev_fails : LoadEnv := ⟨true, some ok_handle, some ctx_fail_handle⟩

/-- A handler state with both libraries bound. -/
def both_bound_kconf : KrunConfig := ⟨some ok_handle, some ok_handle, false, some 0, some 1⟩

/-- Unload environment in which closing the standard library fails and
closing the confidential one would succeed. -/
def c3_unload_env : UnloadEnv := ⟨false, true⟩

/-- A handler state with only the standard library bound, context id 3. -/
def std_only_kconf : KrunConfig := ⟨some ok_handle, none, false, some 3, none⟩

/-- Exec environment: no sentinel, no VM descriptor, host affinity set of
size 8. -/
def c8_exec_env : ExecEnv := ⟨false, .absent, some 8⟩

/-- An OCI spec declaring a memory limit of 2^52 bytes and nothing else
relevant. -/
def c8_spec : ConfigSchema :=
  ⟨some ⟨some ⟨some ⟨some 4503599627370496⟩, none⟩, []⟩, none⟩

/-- An OCI spec with no linux section at all. -/
def empty_spec : ConfigSchema := ⟨none, none⟩

/-- Resources with an empty (but declared) device-cgroup rule list. -/
def c9_res : ResourcesSpec := ⟨none, some []⟩

def c9_lin : LinuxSpec := ⟨some c9_res, []⟩

def c9_spec : ConfigSchema := ⟨some c9_lin, none⟩

/-- Host state: `/dev/kvm` is 10:232, `/dev/sev` does not exist. -/
def c9_env : OciEnv := ⟨.found 10 232, .enoent⟩

/-- A configure environment in which every external call succeeds, the
rootfs root directory is empty, and the stored original config reads as
the bytes `[1, 2, 3]`. -/
def c5_env : ConfigureEnv :=
  ⟨true, true, [], true, true, some [1, 2, 3], true, true, some false, fun _ => true⟩

/-- A configure environment identical to `c5_env` except that the staged
config destination inside the rootfs is a symbolic link. -/
def c1_env : ConfigureEnv :=
  ⟨true, true, [(KRUN_CONFIG_FILE, .symlink "/etc/passwd")], true, true,
   some [1, 2, 3], true, true, some false, fun _ => true⟩

/-! # Theorems -/

/-! ## Association-list helper lemmas -/

theorem dirLookup_dirInsert (d : RootDir) (n : String) (e : Entry) :
    dirLookup (dirInsert d n e) n = some e := by
  induction d with
  | nil => simp [dirInsert, dirLookup]
  | cons p rest ih =>
    unfold dirInsert
    by_cases h : p.1 == n
    · simp [h, dirLookup, List.find?]
    · simpa [h, dirLookup, List.find?] using ih

/-! ## C1: safety of the staged-config write -/

theorem configure_before_mounts_symlink (env : ConfigureEnv) (target : String)
    (hlink : dirLookup env.rootfs_dir KRUN_CONFIG_FILE = some (.symlink target)) :
    ∃ e, configure_before_mounts env = ⟨env.rootfs_dir, false, [], .error e⟩ := by
  have hopen : safe_openat env.rootfs_dir KRUN_CONFIG_FILE
      krun_config_open_flags krun_config_open_mode = .error .eloop := by
    unfold safe_openat
    rw [hlink]
    simp [show hasFlag krun_config_open_flags O_NOFOLLOW = true from by decide]
  unfold configure_before_mounts
  cases hsd : env.state_dir_ok
  · exact ⟨.state_dir_failed, by simp [hsd]⟩
  · cases hap : env.append_paths_ok
    · exact ⟨.append_paths_failed, by simp [hsd, hap]⟩
    · cases hoc : env.origin_config with
      | none => exact ⟨.read_failed, by simp [hsd, hap, hoc]⟩
      | some config => exact ⟨.eloop, by simp [hsd, hap, hoc, hopen]⟩

/-- C1: in the BEFORE_MOUNTS phase, if the final path component of the
staged-config destination inside the container rootfs is a symbolic link,
the write fails with an error and the link is never followed; the staged
config file is only ever opened relative to the already-open rootfs
directory descriptor, with flags containing `O_NOFOLLOW`, `O_CREAT`,
`O_TRUNC` and `O_WRONLY` (no-follow, create-or-truncate, write) and with
mode 0444 (owner/group/other read permission). -/
theorem C1_staged_config_symlink_refused (kconf : KrunConfig) (env : ConfigureEnv)
    (d : ConfigSchema) (target : String)
    (hlink : dirLookup env.rootfs_dir KRUN_CONFIG_FILE = some (.symlink target)) :
    (∃ e, (libkrun_configure_container kconf .before_mounts env d).result = .error e)
    ∧ (libkrun_configure_container kconf .before_mounts env d).rootfs_dir = env.rootfs_dir
    ∧ (libkrun_configure_container kconf .before_mounts env d).symlink_followed = false
    ∧ hasFlag krun_config_open_flags O_NOFOLLOW = true
    ∧ hasFlag krun_config_open_flags O_CREAT = true
    ∧ hasFlag krun_config_open_flags O_TRUNC = true
    ∧ hasFlag krun_config_open_flags O_WRONLY = true
    ∧ krun_config_open_mode = 0o444 := by
  obtain ⟨e, he⟩ := configure_before_mounts_symlink env target hlink
  unfold libkrun_configure_container
  cases hro : (env.rootfs_given && !env.rootfs_open_ok)
  · exact ⟨⟨e, by simp [hro, he]⟩, by simp [hro, he], by simp [hro, he],
      by decide, by decide, by decide, by decide, by decide⟩
  · exact ⟨⟨.open_failed, by simp [hro]⟩, by simp [hro], by simp [hro],
      by decide, by decide, by decide, by decide, by decide⟩

theorem C1_staged_config_symlink_refused_witness :
    ∃ e, (libkrun_configure_container std_only_kconf .before_mounts c1_env
      empty_spec).result = .error e :=
  (C1_staged_config_symlink_refused std_only_kconf c1_env empty_spec
    "/etc/passwd" (by decide)).1

/-! ## C5: round trip of the staged config bytes -/

theorem safe_openat_nofollow_never_follows (dr : RootDir) (n : String)
    (flags mode : Nat) (hf : hasFlag flags O_NOFOLLOW = true)
    (d' : RootDir) (fl : Bool)
    (h : safe_openat dr n flags mode = .ok (d', fl)) : fl = false := by
  unfold safe_openat at h
  cases hl : dirLookup dr n with
  | none =>
    rw [hl] at h
    by_cases hc : hasFlag flags O_CREAT = true <;> simp [hc] at h <;> simp_all
  | some entry =>
    rw [hl] at h
    cases entry with
    | file content =>
      by_cases hc : hasFlag flags O_TRUNC = true <;> simp [hc] at h <;> simp_all
    | symlink target => rw [hf] at h; simp at h
    | dir => simp at h

/-- Every run of the BEFORE_MOUNTS block either fails, or succeeds having
staged the bytes of the stored original config into `KRUN_CONFIG_FILE`
without following any symbolic link. -/
theorem configure_before_mounts_cases (env : ConfigureEnv) :
    (∃ e, (configure_before_mounts env).result = .error e)
    ∨ (∃ bytes d', env.origin_config = some bytes
        ∧ configure_before_mounts env
            = ⟨dirInsert d' KRUN_CONFIG_FILE (.file bytes), false, [], .ok ()⟩) := by
  unfold configure_before_mounts
  cases hsd : env.state_dir_ok
  case false => exact Or.inl ⟨.state_dir_failed, by simp⟩
  case true =>
  cases hap : env.append_paths_ok
  case false => exact Or.inl ⟨.append_paths_failed, by simp⟩
  case true =>
  cases hoc : env.origin_config with
  | none => exact Or.inl ⟨.read_failed, by simp⟩
  | some config =>
    cases ho : safe_openat env.rootfs_dir KRUN_CONFIG_FILE
        krun_config_open_flags krun_config_open_mode with
    | error e => exact Or.inl ⟨e, by simp⟩
    | ok pr =>
      obtain ⟨d', followed⟩ := pr
      have hfl : followed = false :=
        safe_openat_nofollow_never_follows env.rootfs_dir KRUN_CONFIG_FILE
          krun_config_open_flags krun_config_open_mode (by decide) d' followed ho
      subst hfl
      cases hw : env.write_ok
      case false => exact Or.inl ⟨.write_failed, by simp⟩
      case true => exact Or.inr ⟨config, d', rfl, by simp⟩

/-- C5: whenever the BEFORE_MOUNTS phase succeeds, the bytes of the staged
config file inside the rootfs equal, byte for byte, the bytes read from
the stored original launch specification in the state directory. -/
theorem C5_staged_config_round_trip (kconf : KrunConfig) (env : ConfigureEnv)
    (d : ConfigSchema) (bytes : List Nat)
    (hread : env.origin_config = some bytes)
    (hok : (libkrun_configure_container kconf .before_mounts env d).result = .ok ()) :
    dirLookup (libkrun_configure_container kconf .before_mounts env d).rootfs_dir
      KRUN_CONFIG_FILE = some (.file bytes) := by
  have hcc : libkrun_configure_container kconf .before_mounts env d
      = if env.rootfs_given && !env.rootfs_open_ok
        then ⟨env.rootfs_dir, false, [], .error .open_failed⟩
        else configure_before_mounts env := rfl
  rw [hcc] at hok ⊢
  cases hro : (env.rootfs_given && !env.rootfs_open_ok)
  case true => rw [hro, if_pos rfl] at hok; simp at hok
  case false =>
  rw [hro, if_neg Bool.false_ne_true] at hok
  rw [if_neg Bool.false_ne_true]
  rcases configure_before_mounts_cases env with ⟨e, he⟩ | ⟨b, d', hb, heq⟩
  · rw [hok] at he; simp at he
  · rw [hread] at hb
    injection hb with hb'
    subst hb'
    rw [heq]
    exact dirLookup_dirInsert d' KRUN_CONFIG_FILE (.file bytes)

theorem C5_staged_config_round_trip_witness :
    dirLookup (libkrun_configure_container std_only_kconf .before_mounts c5_env
      empty_spec).rootfs_dir KRUN_CONFIG_FILE = some (.file [1, 2, 3]) :=
  C5_staged_config_round_trip std_only_kconf c5_env empty_spec [1, 2, 3]
    rfl rfl

/-! ## C2: load-time context creation (corrected) -/

/-- C2 counterexample: both libraries bind.  In `c2_load_env_sev_fails`
the standard backend's context creation actually succeeds during the load
(`krun_create_ctx` returns 0, a usable context), and the confidential
backend's context creation then fails — yet the whole load fails, even
though a usable context exists across the bound backends.  In
`c2_load_env` the standard backend's creation fails first and load
returns at once, never even attempting the confidential backend's
context, whose creation would succeed.  Both refute the claim that load
fails only when no usable context exists. -/
theorem C2_counterexample :
    libkrun_create_context ok_handle = .ok 0
    ∧ libkrun_create_context ctx_fail_handle = .error (.backend 1)
    ∧ libkrun_load c2_load_env_sev_fails = .error (.backend 1)
    ∧ libkrun_load c2_load_env = .error (.backend 1) :=
  ⟨rfl, rfl, rfl, rfl⟩

/-- C2 amended: load succeeds iff allocation succeeds, at least one
library binds, and context creation succeeds for every bound library — a
context-creation failure for any bound backend is fatal even when the
other bound backend produced a usable context. -/
theorem C2_amended_load_success_iff (env : LoadEnv) :
    (∃ k, libkrun_load env = .ok k) ↔
      (env.malloc_ok = true
       ∧ (env.dlopen_krun ≠ none ∨ env.dlopen_krun_sev ≠ none)
       ∧ (∀ h, env.dlopen_krun = some h → ∃ c, libkrun_create_context h = .ok c)
       ∧ (∀ h, env.dlopen_krun_sev = some h → ∃ c, libkrun_create_context h = .ok c)) := by
  obtain ⟨m, k, s⟩ := env
  cases m
  · simp [libkrun_load]
  · cases k with
    | none =>
      cases s with
      | none => simp [libkrun_load]
      | some hs =>
        cases hcs : libkrun_create_context hs with
        | error e => simp [libkrun_load, hcs]
        | ok c => simp [libkrun_load, hcs]
    | some hk =>
      cases hck : libkrun_create_context hk with
      | error e =>
        cases s with
        | none => simp [libkrun_load, hck]
        | some hs => simp [libkrun_load, hck]
      | ok c =>
        cases s with
        | none => simp [libkrun_load, hck]
        | some hs =>
          cases hcs : libkrun_create_context hs with
          | error e => simp [libkrun_load, hck, hcs]
          | ok c2 => simp [libkrun_load, hck, hcs]

theorem C2_amended_load_success_iff_witness :
    ∃ k, libkrun_load ⟨true, some ok_handle, none⟩ = .ok k :=
  (C2_amended_load_success_iff ⟨true, some ok_handle, none⟩).mpr
    ⟨rfl, Or.inl (by simp),
     fun h hh => ⟨0, by injection hh with hh'; rw [← hh']; rfl⟩,
     fun h hh => by cases hh⟩

/-! ## C3: unload ordering (corrected) -/

/-- C3 counterexample: both libraries bound, closing the standard one
fails; unload reports the failure without ever attempting to close the
confidential library — refuting the claim that both releases are always
attempted. -/
theorem C3_counterexample :
    libkrun_unload (some both_bound_kconf) c3_unload_env
      = ((true, false), .error (.dlclose_failed false)) := rfl

/-- C3 amended: unload attempts to release the standard library first;
if that release fails, the error is returned at once and the confidential
library is not released.  A confidential-release failure is reported only
when the standard release succeeded (or was not needed). -/
theorem C3_amended_unload_stops_at_first_failure (k : KrunConfig) (env : UnloadEnv) :
    (k.handle ≠ none → env.dlclose_ok = false →
       libkrun_unload (some k) env = ((true, false), .error (.dlclose_failed false)))
    ∧ (k.handle ≠ none → k.handle_sev ≠ none → env.dlclose_ok = true →
       (libkrun_unload (some k) env).1 = (true, true)
       ∧ (libkrun_unload (some k) env).2
           = if env.dlclose_sev_ok then .ok () else .error (.dlclose_failed true)) := by
  obtain ⟨hk, hs, sv, c1, c2⟩ := k
  constructor
  · intro hne hfail
    cases hk with
    | none => exact absurd rfl hne
    | some h => simp [libkrun_unload, hfail]
  · intro hne hnes hok
    cases hk with
    | none => exact absurd rfl hne
    | some h =>
      cases hs with
      | none => exact absurd rfl hnes
      | some h2 =>
        cases hsv : env.dlclose_sev_ok <;> simp [libkrun_unload, hok, hsv]

theorem C3_amended_witness :
    (libkrun_unload (some both_bound_kconf) ⟨true, true⟩).1 = (true, true)
    ∧ (libkrun_unload (some both_bound_kconf) ⟨true, true⟩).2 = .ok () := by
  have h := (C3_amended_unload_stops_at_first_failure both_bound_kconf ⟨true, true⟩).2
    (by simp [both_bound_kconf]) (by simp [both_bound_kconf]) rfl
  exact ⟨h.1, by rw [h.2]; rfl⟩

/-! ## C4: backend selection -/

theorem libkrun_exec_kconf_eq (kconf : KrunConfig) (env : ExecEnv) (d : ConfigSchema)
    (h : Handle) (c : Option Int) (k' : KrunConfig)
    (hsel : libkrun_select env.sev_file_exists kconf = .ok (h, c, k')) :
    (libkrun_exec kconf env d).kconf = k' := by
  unfold libkrun_exec
  rw [hsel]
  dsimp only []
  repeat' split
  all_goals rfl

/-- C4: backend selection is a pure function of sentinel-file presence,
decided once before any backend call: sentinel present selects the
confidential handle/context and, when that backend is unbound, the launch
fails fatally with no backend call issued; sentinel absent symmetrically
selects the standard backend.  The selected mode is recorded in the
handler state's `sev` flag for the rest of the launch. -/
theorem C4_selection_pure (kconf : KrunConfig) (env : ExecEnv) (d : ConfigSchema) :
    (∀ h, kconf.handle_sev = some h →
       libkrun_select true kconf = .ok (h, kconf.ctx_id_sev, { kconf with sev := true }))
    ∧ (∀ h, kconf.handle = some h →
       libkrun_select false kconf = .ok (h, kconf.ctx_id, { kconf with sev := false }))
    ∧ (env.sev_file_exists = true → kconf.handle_sev = none →
       libkrun_exec kconf env d = ⟨[], .error .sev_unavailable, kconf⟩)
    ∧ (env.sev_file_exists = false → kconf.handle = none →
       libkrun_exec kconf env d = ⟨[], .error .krun_unavailable, kconf⟩)
    ∧ (∀ h, env.sev_file_exists = true → kconf.handle_sev = some h →
       (libkrun_exec kconf env d).kconf = { kconf with sev := true })
    ∧ (∀ h, env.sev_file_exists = false → kconf.handle = some h →
       (libkrun_exec kconf env d).kconf = { kconf with sev := false }) := by
  refine ⟨?_, ?_, ?_, ?_, ?_, ?_⟩
  · intro h hh; simp [libkrun_select, hh]
  · intro h hh; simp [libkrun_select, hh]
  · intro hs hh
    unfold libkrun_exec
    rw [show libkrun_select env.sev_file_exists kconf = .error .sev_unavailable
      from by simp [libkrun_select, hs, hh]]
  · intro hs hh
    unfold libkrun_exec
    rw [show libkrun_select env.sev_file_exists kconf = .error .krun_unavailable
      from by simp [libkrun_select, hs, hh]]
  · intro h hs hh
    exact libkrun_exec_kconf_eq kconf env d h kconf.ctx_id_sev _
      (by simp [libkrun_select, hs, hh])
  · intro h hs hh
    exact libkrun_exec_kconf_eq kconf env d h kconf.ctx_id _
      (by simp [libkrun_select, hs, hh])

theorem C4_selection_pure_witness :
    libkrun_exec std_only_kconf ⟨true, .absent, none⟩ empty_spec
      = ⟨[], .error .sev_unavailable, std_only_kconf⟩ :=
  (C4_selection_pure std_only_kconf ⟨true, .absent, none⟩ empty_spec).2.2.1 rfl rfl

/-! ## C6: one-sided VM sizing is ignored -/

theorem configure_kernel_no_vm_config (ctx : Nat) (h : Handle) (t : JObj)
    (c v r : Nat) :
    BackendCall.set_vm_config c v r ∉ (libkrun_configure_kernel ctx h t).1 := by
  unfold libkrun_configure_kernel
  repeat' split
  all_goals (first | (simp; done) | (dsimp only []; split <;> simp))

/-- C6: if the VM descriptor's vCPU-count field or RAM-MiB field is
missing or not an integer, no explicit sizing call is passed to the
backend and sizing is reported as not configured (the `*configured`
out-parameter stays false, so the legacy derivation applies in full); a
one-sided pair is not by itself an error. -/
theorem C6_partial_sizing_never_applied (ctx : Nat) (h : Handle) (t : JObj)
    (hbad : is_int_field t "cpus" = false ∨ is_int_field t "ram_mib" = false) :
    (∀ c v r, BackendCall.set_vm_config c v r ∉ (libkrun_configure_vm ctx h (.parsed t)).1)
    ∧ (∀ b, (libkrun_configure_vm ctx h (.parsed t)).2 = .ok b → b = false)
    ∧ ((libkrun_configure_kernel ctx h t).2 = .ok () →
       libkrun_configure_vm ctx h (.parsed t)
         = ((libkrun_configure_kernel ctx h t).1, .ok false)) := by
  have hred : ∀ kcalls, libkrun_configure_kernel ctx h t = (kcalls, .ok ()) →
      libkrun_configure_vm ctx h (.parsed t) = (kcalls, .ok false) := by
    intro kcalls hk
    unfold libkrun_configure_vm
    dsimp only []
    rw [hk]
    dsimp only []
    split
    · exfalso
      rcases hbad with hb | hb <;> unfold is_int_field at hb <;> simp_all
    · rfl
  refine ⟨?_, ?_, ?_⟩
  · intro c v r
    rcases hkp : libkrun_configure_kernel ctx h t with ⟨kcalls, kres⟩
    have hnk := configure_kernel_no_vm_config ctx h t c v r
    rw [hkp] at hnk
    cases kres with
    | error e =>
      have hvme : libkrun_configure_vm ctx h (.parsed t) = (kcalls, .error e) := by
        unfold libkrun_configure_vm; dsimp only []; rw [hkp]
      rw [hvme]
      exact hnk
    | ok u =>
      cases u
      rw [hred kcalls hkp]
      exact hnk
  · intro b hb2
    rcases hkp : libkrun_configure_kernel ctx h t with ⟨kcalls, kres⟩
    cases kres with
    | error e =>
      have hvme : libkrun_configure_vm ctx h (.parsed t) = (kcalls, .error e) := by
        unfold libkrun_configure_vm; dsimp only []; rw [hkp]
      rw [hvme] at hb2
      simp at hb2
    | ok u =>
      cases u
      rw [hred kcalls hkp] at hb2
      simpa using hb2.symm
  · intro hko
    rcases hkp : libkrun_configure_kernel ctx h t with ⟨kcalls, kres⟩
    rw [hkp] at hko
    simp at hko
    subst hko
    simp [hred kcalls hkp, hkp]

theorem C6_partial_sizing_never_applied_witness :
    libkrun_configure_vm 0 ok_handle (.parsed [("cpus", JVal.jint 4)])
      = ((libkrun_configure_kernel 0 ok_handle [("cpus", JVal.jint 4)]).1, .ok false) :=
  (C6_partial_sizing_never_applied 0 ok_handle [("cpus", JVal.jint 4)]
    (Or.inr rfl)).2.2 rfl

/-! ## C7: AFTER_MOUNTS device injection -/

/-- C7: in the AFTER_MOUNTS phase, if `/dev/kvm` is already declared in
the spec's device list, zero device nodes are created and the phase
returns success; otherwise a `/dev/kvm` character node (10:232, mode
0666) is created in the container's `/dev` through the already-open
directory descriptor, plus `/dev/sev` (10:124, mode 0666) iff the
confidential backend is bound and `/dev/sev` is not already declared. -/
theorem C7_after_mounts_device_injection (kconf : KrunConfig) (env : ConfigureEnv)
    (d : ConfigSchema) (lin : LinuxSpec)
    (hlin : d.linux = some lin)
    (hro : (env.rootfs_given && !env.rootfs_open_ok) = false) :
    (lin.devices.any (fun dev => dev.path == "/dev/kvm") = true →
       libkrun_configure_container kconf .after_mounts env d
         = ⟨env.rootfs_dir, false, [], .ok ()⟩)
    ∧ (lin.devices.any (fun dev => dev.path == "/dev/kvm") = false →
       env.dev_dir_open_ok = true →
       ∀ b, env.user_ns = some b →
       (∀ dev, env.create_dev_ok dev = true) →
       ((libkrun_configure_container kconf .after_mounts env d).created
          = if kconf.handle_sev.isSome
               && !(lin.devices.any (fun dev => dev.path == "/dev/sev"))
            then [kvm_device, sev_device] else [kvm_device])
       ∧ (libkrun_configure_container kconf .after_mounts env d).result = .ok ()) := by
  have hcc : libkrun_configure_container kconf .after_mounts env d
      = if env.rootfs_given && !env.rootfs_open_ok
        then ⟨env.rootfs_dir, false, [], .error .open_failed⟩
        else configure_after_mounts kconf env d := rfl
  rw [hcc, hro, if_neg Bool.false_ne_true]
  refine ⟨?_, ?_⟩
  · intro hkvm
    unfold configure_after_mounts
    rw [hlin]
    dsimp only []
    rw [hkvm, if_pos rfl]
  · intro hkvm hdev b hb hcreate
    unfold configure_after_mounts
    rw [hlin]
    dsimp only []
    rw [hkvm]
    cases hcs : (kconf.handle_sev.isSome
        && !(lin.devices.any (fun dev => dev.path == "/dev/sev")))
    · simp [hdev, hb, hcreate, hcs]
    · simp [hdev, hb, hcreate, hcs]

theorem C7_after_mounts_device_injection_witness :
    (libkrun_configure_container both_bound_kconf .after_mounts c5_env
        ⟨some ⟨none, []⟩, none⟩).created = [kvm_device, sev_device]
    ∧ (libkrun_configure_container both_bound_kconf .after_mounts c5_env
        ⟨some ⟨none, []⟩, none⟩).result = .ok () := by
  have h := (C7_after_mounts_device_injection both_bound_kconf c5_env
      ⟨some ⟨none, []⟩, none⟩ ⟨none, []⟩ rfl rfl).2
    rfl rfl false rfl (fun _ => rfl)
  exact ⟨by rw [h.1]; rfl, h.2⟩

/-! ## C8: legacy sizing derivation (corrected) -/

theorem exec_std_branch_ok (h : Handle) (ctx : Nat) (d : ConfigSchema)
    (hs3 : h.has_krun_set_root = true) (hs4 : h.has_krun_set_workdir = true)
    (hret : ∀ c, 0 ≤ h.ret c) :
    ∃ calls, exec_std_branch h ctx d = (calls, .ok ()) := by
  have hr1 : ¬ (h.ret (BackendCall.set_root ctx "/") < 0) := not_lt.mpr (hret _)
  unfold exec_std_branch
  cases dp : d.process with
  | none =>
    refine ⟨[BackendCall.set_root ctx "/"], ?_⟩
    simp [hs3, hs4, hr1]
  | some p =>
    cases dc : p.cwd with
    | none =>
      refine ⟨[BackendCall.set_root ctx "/"], ?_⟩
      simp [hs3, hs4, hr1, dc]
    | some cwd =>
      have hr2 : ¬ (h.ret (BackendCall.set_workdir ctx cwd) < 0) := not_lt.mpr (hret _)
      refine ⟨[BackendCall.set_root ctx "/", BackendCall.set_workdir ctx cwd], ?_⟩
      simp [hs3, hs4, hr1, hr2, dc]

theorem exec_legacy_vm_config_ok (h : Handle) (ctx : Nat) (affinity : Option Nat)
    (d : ConfigSchema) (hs5 : h.has_krun_set_vm_config = true)
    (hret : ∀ c, 0 ≤ h.ret c) :
    exec_legacy_vm_config h ctx affinity d
      = ([.set_vm_config ctx (legacy_num_vcpus affinity % 256)
            (legacy_ram_mib (mem_limit d))], .ok ()) := by
  have hr : ¬ (h.ret (BackendCall.set_vm_config ctx (legacy_num_vcpus affinity % 256)
      (legacy_ram_mib (mem_limit d))) < 0) := not_lt.mpr (hret _)
  unfold exec_legacy_vm_config
  simp [hs5, hr]

/-- C8 counterexample: with no VM descriptor, host affinity set size 8,
context id 3 and a declared memory limit of 2^52 bytes, the claim as
stated requires a RAM value of 2^52 / 2^20 = 4294967296 MiB, but the
`uint32_t` truncation makes the code pass 0 to the backend. -/
theorem C8_counterexample :
    (libkrun_exec std_only_kconf c8_exec_env c8_spec).calls
      = [.set_log_level 1, .set_root 3 "/", .set_vm_config 3 8 0, .start_enter 3]
    ∧ mem_limit c8_spec = some 4503599627370496
    ∧ (4503599627370496 : Int).tdiv 1048576 = 4294967296
    ∧ (0 : Nat) ≠ 4294967296 :=
  ⟨rfl, rfl, by decide, by decide⟩

/-- C8 amended: when sizing is not configured by the descriptor, the
launch passes the backend min(host affinity set size, 16) vCPUs with
fallback 1 when the affinity query fails, and a RAM value equal to the
spec's declared memory limit divided by 2^20 (integer division) reduced
modulo 2^32 when a limit is present, and 2048 MiB otherwise. -/
theorem C8_amended_legacy_sizing (kconf : KrunConfig) (env : ExecEnv)
    (d : ConfigSchema) (h : Handle)
    (hh : kconf.handle = some h)
    (hsev : env.sev_file_exists = false)
    (hvm : env.vm_file = .absent)
    (hs1 : h.has_krun_set_log_level = true) (hs2 : h.has_krun_start_enter = true)
    (hs3 : h.has_krun_set_root = true) (hs4 : h.has_krun_set_workdir = true)
    (hs5 : h.has_krun_set_vm_config = true)
    (hret : ∀ c, 0 ≤ h.ret c) :
    BackendCall.set_vm_config (u32 (kconf.ctx_id.getD 0))
        (legacy_num_vcpus env.affinity % 256) (legacy_ram_mib (mem_limit d))
      ∈ (libkrun_exec kconf env d).calls
    ∧ legacy_num_vcpus none = 1
    ∧ (∀ n, legacy_num_vcpus (some n) = min n LIBKRUN_MAX_VCPUS)
    ∧ legacy_ram_mib none = 2048
    ∧ (∀ l : Int, legacy_ram_mib (some l)
         = ((l.tdiv 1048576).emod 4294967296).toNat) := by
  refine ⟨?_, rfl, fun n => rfl, rfl, fun l => rfl⟩
  have hsel : libkrun_select env.sev_file_exists kconf
      = .ok (h, kconf.ctx_id, { kconf with sev := false }) := by
    simp [libkrun_select, hsev, hh]
  obtain ⟨bcalls, hb⟩ := exec_std_branch_ok h (u32 (kconf.ctx_id.getD 0)) d hs3 hs4 hret
  have hvmc : libkrun_configure_vm (u32 (kconf.ctx_id.getD 0)) h env.vm_file
      = ([], .ok false) := by rw [hvm]; exact rfl
  have hleg := exec_legacy_vm_config_ok h (u32 (kconf.ctx_id.getD 0)) env.affinity d hs5 hret
  unfold libkrun_exec
  rw [hsel]
  simp [hs1, hs2, hb, hvmc, hleg]

theorem C8_amended_legacy_sizing_witness :
    BackendCall.set_vm_config 3 8 0
      ∈ (libkrun_exec std_only_kconf c8_exec_env c8_spec).calls :=
  (C8_amended_legacy_sizing std_only_kconf c8_exec_env c8_spec ok_handle
    rfl rfl rfl rfl rfl rfl rfl rfl (fun _ => le_refl 0)).1

/-! ## C9: OCI spec patch is append-only -/

/-- C9: the OCI spec patch leaves the spec entirely unchanged when it
declares no linux section, no resources, or no device-cgroup rule list;
otherwise it only appends always-allow "rwm" rules addressed by
major/minor — one for `/dev/kvm` (fatal if absent on the host) and one
for `/dev/sev` only when present on the host (absence tolerated) —
preserving every pre-existing rule and their order and changing nothing
else in the spec. -/
theorem C9_oci_patch_append_only (d : ConfigSchema) (env : OciEnv) :
    (d.linux = none → libkrun_modify_oci_configuration d env = .ok d)
    ∧ (∀ lin, d.linux = some lin → lin.resources = none →
        libkrun_modify_oci_configuration d env = .ok d)
    ∧ (∀ lin res, d.linux = some lin → lin.resources = some res →
        res.devices = none → libkrun_modify_oci_configuration d env = .ok d)
    ∧ (∀ lin res devs, d.linux = some lin → lin.resources = some res →
        res.devices = some devs →
        ((env.stat_kvm = .enoent ∨ env.stat_kvm = .err_other) →
           libkrun_modify_oci_configuration d env = .error .stat_failed)
        ∧ (∀ km kn, env.stat_kvm = .found km kn →
            (env.stat_sev = .err_other →
               libkrun_modify_oci_configuration d env = .error .stat_failed)
            ∧ (env.stat_sev = .enoent →
               libkrun_modify_oci_configuration d env
                 = .ok (with_devices d lin res
                     (devs ++ [make_oci_spec_dev "a" km kn true "rwm"])))
            ∧ (∀ sm sn, env.stat_sev = .found sm sn →
               libkrun_modify_oci_configuration d env
                 = .ok (with_devices d lin res
                     (devs ++ [make_oci_spec_dev "a" km kn true "rwm"]
                           ++ [make_oci_spec_dev "a" sm sn true "rwm"]))))) := by
  refine ⟨?_, ?_, ?_, ?_⟩
  · intro hlin; simp [libkrun_modify_oci_configuration, hlin]
  · intro lin hlin hres; simp [libkrun_modify_oci_configuration, hlin, hres]
  · intro lin res hlin hres hdev
    simp [libkrun_modify_oci_configuration, hlin, hres, hdev]
  · intro lin res devs hlin hres hdev
    refine ⟨?_, ?_⟩
    · rintro (hk | hk) <;>
        simp [libkrun_modify_oci_configuration, hlin, hres, hdev, hk]
    · intro km kn hk
      refine ⟨?_, ?_, ?_⟩
      · intro hs
        simp [libkrun_modify_oci_configuration, hlin, hres, hdev, hk, hs]
      · intro hs
        simp [libkrun_modify_oci_configuration, with_devices, hlin, hres, hdev, hk, hs]
      · intro sm sn hs
        simp [libkrun_modify_oci_configuration, with_devices, hlin, hres, hdev, hk, hs]

theorem C9_oci_patch_append_only_witness :
    libkrun_modify_oci_configuration c9_spec c9_env
      = .ok (with_devices c9_spec c9_lin c9_res
          ([] ++ [make_oci_spec_dev "a" 10 232 true "rwm"])) :=
  (((C9_oci_patch_append_only c9_spec c9_env).2.2.2 c9_lin c9_res [] rfl rfl
      rfl).2 10 232 rfl).2.1 rfl

/-! ## C10: explicit sizing passes machine integers, uncapped -/

/-- C10: when the descriptor explicitly configures sizing, the values
are passed to the backend as fixed-width machine integers — the vCPU
count reduced modulo 2^8 (`uint8_t`) and the RAM value modulo 2^32
(`uint32_t`) — and the 16-vCPU cap is not applied on this path; the
clamp against `LIBKRUN_MAX_VCPUS` exists only in the legacy default
derivation. -/
theorem C10_explicit_sizing_machine_integers (ctx : Nat) (h : Handle) (t : JObj)
    (c r : Int)
    (hc : yajl_tree_get t "cpus" .tnumber = some (.jint c))
    (hr : yajl_tree_get t "ram_mib" .tnumber = some (.jint r))
    (hsym : h.has_krun_set_vm_config = true)
    (hker : (libkrun_configure_kernel ctx h t).2 = .ok ()) :
    BackendCall.set_vm_config ctx (u8 c) (u32 r)
        ∈ (libkrun_configure_vm ctx h (.parsed t)).1
    ∧ u8 c = (c.emod 256).toNat
    ∧ u32 r = (r.emod 4294967296).toNat
    ∧ (∀ n, legacy_num_vcpus (some n) = min n LIBKRUN_MAX_VCPUS) := by
  refine ⟨?_, rfl, rfl, fun n => rfl⟩
  rcases hkp : libkrun_configure_kernel ctx h t with ⟨kcalls, kres⟩
  rw [hkp] at hker
  simp at hker
  subst hker
  unfold libkrun_configure_vm
  dsimp only []
  rw [hkp]
  dsimp only []
  rw [hc, hr]
  dsimp only []
  by_cases hlt : h.ret (BackendCall.set_vm_config ctx (u8 c) (u32 r)) < 0
  · simp [hsym, hlt]
  · simp [hsym, hlt]

theorem C10_explicit_sizing_machine_integers_witness :
    BackendCall.set_vm_config 7 200 5
      ∈ (libkrun_configure_vm 7 ok_handle
          (.parsed [("cpus", JVal.jint 200), ("ram_mib", JVal.jint 4294967301)])).1 :=
  (C10_explicit_sizing_machine_integers 7 ok_handle
    [("cpus", JVal.jint 200), ("ram_mib", JVal.jint 4294967301)]
    200 4294967301 rfl rfl rfl rfl).1

end Krun
